import Mathlib

/-!
Shallow embedding of the input dispatch layer of OpenRCT2
(`src/openrct2-ui/input/InputManager.cpp`) and the Multi-Dimension Roller
Coaster ride type descriptors
(`src/openrct2/ride/coaster/meta/MultiDimensionRollerCoaster.h`),
together with theorems settling the specification claims about them.

Side-effecting calls into UI collaborators (shortcut manager, in-game
console, chat, windows) are modelled as trace elements: each embedded
function returns the ordered list of collaborator calls it makes.
-/

namespace OpenRCT2

/-! ## SDL constants (values from the SDL2 public API) -/

def SDL_JOYHATMOTION : Nat := 0x602
def SDL_JOYBUTTONDOWN : Nat := 0x603
def SDL_JOYBUTTONUP : Nat := 0x604
def SDL_HAT_CENTERED : Nat := 0
def SDLK_ESCAPE : Nat := 27
def SDLK_RETURN : Nat := 13
def SDLK_KP_ENTER : Nat := 0x40000058
def SDLK_UP : Nat := 0x40000052
def SDLK_DOWN : Nat := 0x40000051
def SDLK_PAGEUP : Nat := 0x4000004B
def SDLK_PAGEDOWN : Nat := 0x4000004E

/-! ## Input event data model (InputManager.h) -/

inductive InputDeviceKind where
  | Mouse
  | Keyboard
  | JoyButton
  | JoyHat
deriving DecidableEq, Repr

inductive InputEventState where
  | Down
  | Release
deriving DecidableEq, Repr

structure InputEvent where
  DeviceKind : InputDeviceKind
  Modifiers : Nat
  Button : Nat
  State : InputEventState
deriving DecidableEq, Repr

/-- The fields of `SDL_Event` that `InputManager::QueueInputEvent` reads:
the event type tag, `e.jhat.value` and `e.jbutton.button`. -/
structure SDLEvent where
  type : Nat
  jhatValue : Nat
  jbuttonButton : Nat
deriving DecidableEq, Repr

/-- `InputManager::QueueInputEvent(InputEvent&&)`: `_events.push(e)` on the
FIFO queue, modelled as appending at the back of a list whose head is the
front of the queue. -/
def queueInputEvent (e : InputEvent) (q : List InputEvent) : List InputEvent :=
  q ++ [e]

/-- `InputManager::QueueInputEvent(const SDL_Event&)`. `modState` is the
value `SDL_GetModState()` returns at the time of the call. -/
def queueInputEventSDL (modState : Nat) (e : SDLEvent) (q : List InputEvent) :
    List InputEvent :=
  if e.type = SDL_JOYHATMOTION then
    if e.jhatValue ≠ SDL_HAT_CENTERED then
      queueInputEvent
        { DeviceKind := InputDeviceKind.JoyHat, Modifiers := modState,
          Button := e.jhatValue, State := InputEventState.Down } q
    else q
  else if e.type = SDL_JOYBUTTONDOWN then
    queueInputEvent
      { DeviceKind := InputDeviceKind.JoyButton, Modifiers := modState,
        Button := e.jbuttonButton, State := InputEventState.Down } q
  else if e.type = SDL_JOYBUTTONUP then
    queueInputEvent
      { DeviceKind := InputDeviceKind.JoyButton, Modifiers := modState,
        Button := e.jbuttonButton, State := InputEventState.Release } q
  else q

/-! ## Event dispatch (`InputManager::Process(const InputEvent&)` and helpers) -/

/-- A UI window; only its identity matters to the embedded code. -/
structure Window where
  id : Nat
deriving DecidableEq, Repr

/-- `ConsoleInput` values used by `ProcessInGameConsole`
(from `InGameConsole.h`). -/
inductive ConsoleInput where
  | None
  | LineClear
  | LineExecute
  | HistoryPrevious
  | HistoryNext
  | ScrollPrevious
  | ScrollNext
deriving DecidableEq, Repr

/-- `ChatInput` values used by `ProcessChat` (from `Chat.h`). -/
inductive ChatInput where
  | None
  | Close
  | Send
deriving DecidableEq, Repr

/-- One call into a UI collaborator made while dispatching an input event. -/
inductive UiCall where
  | specificShortcutDebugConsole (e : InputEvent)
  | consoleInput (i : ConsoleInput)
  | chatInput (i : ChatInput)
  | windowTextInputKey (w : Window) (button : Nat)
  | shortcutProcessEvent (e : InputEvent)
deriving DecidableEq, Repr

/-- The global UI state `InputManager::Process(const InputEvent&)` reads:
whether the in-game console is open, whether chat is open
(`gChatOpen`), the result of `window_find_by_class(WC_TEXTINPUT)`
(`none` models a null pointer), `gUsingWidgetTextBox`, and the verdict of
`ShortcutManager::ProcessEventForSpecificShortcut` for the debug-console
shortcut. -/
structure ProcessEnv where
  consoleOpen : Bool
  chatOpen : Bool
  textInputWindow : Option Window
  usingWidgetTextBox : Bool
  debugShortcutHandles : InputEvent → Bool

/-- The `input` local of `InputManager::ProcessInGameConsole` after its
switch over `e.Button`. -/
def consoleInputFor (button : Nat) : ConsoleInput :=
  if button = SDLK_ESCAPE then ConsoleInput.LineClear
  else if button = SDLK_RETURN ∨ button = SDLK_KP_ENTER then ConsoleInput.LineExecute
  else if button = SDLK_UP then ConsoleInput.HistoryPrevious
  else if button = SDLK_DOWN then ConsoleInput.HistoryNext
  else if button = SDLK_PAGEUP then ConsoleInput.ScrollPrevious
  else if button = SDLK_PAGEDOWN then ConsoleInput.ScrollNext
  else ConsoleInput.None

/-- `InputManager::ProcessInGameConsole`, as the list of
`console.Input(...)` calls it makes. -/
def processInGameConsole (e : InputEvent) : List UiCall :=
  if e.DeviceKind = InputDeviceKind.Keyboard ∧ e.State = InputEventState.Release then
    let input := consoleInputFor e.Button
    if input ≠ ConsoleInput.None then [UiCall.consoleInput input] else []
  else []

/-- The `input` local of `InputManager::ProcessChat` after its switch over
`e.Button`. -/
def chatInputFor (button : Nat) : ChatInput :=
  if button = SDLK_ESCAPE then ChatInput.Close
  else if button = SDLK_RETURN ∨ button = SDLK_KP_ENTER then ChatInput.Send
  else ChatInput.None

/-- `InputManager::ProcessChat`, as the list of `chat_input(...)` calls it
makes. -/
def processChat (e : InputEvent) : List UiCall :=
  if e.DeviceKind = InputDeviceKind.Keyboard ∧ e.State = InputEventState.Release then
    let input := chatInputFor e.Button
    if input ≠ ChatInput.None then [UiCall.chatInput input] else []
  else []

/-- `InputManager::Process(const InputEvent&)`, as the ordered list of
collaborator calls it makes. `ProcessEventForSpecificShortcut` is recorded
as a call and its boolean verdict comes from the environment; when the
verdict is false the code falls through to `ProcessInGameConsole`. A
`return` that dispatches nothing yields an empty remainder of the trace;
control that reaches the end of the function calls
`shortcutManager.ProcessEvent(e)`. -/
def process (env : ProcessEnv) (e : InputEvent) : List UiCall :=
  if e.DeviceKind = InputDeviceKind.Keyboard then
    if env.consoleOpen then
      UiCall.specificShortcutDebugConsole e ::
        (if env.debugShortcutHandles e then [] else processInGameConsole e)
    else if env.chatOpen then
      processChat e
    else
      -- the source re-tests `e.DeviceKind == InputDeviceKind::Keyboard` here
      if e.DeviceKind = InputDeviceKind.Keyboard then
        match env.textInputWindow with
        | some w =>
            if e.State = InputEventState.Release then
              [UiCall.windowTextInputKey w e.Button]
            else []
        | none =>
            if env.usingWidgetTextBox then []
            else [UiCall.shortcutProcessEvent e]
      else [UiCall.shortcutProcessEvent e]
  else [UiCall.shortcutProcessEvent e]

/-- `InputManager::ProcessEvents`: pop and dispatch the front of the queue
until it is empty. Returns the dispatched events paired with the calls
each produced, in dispatch order, together with the final queue. -/
def processEvents (env : ProcessEnv) :
    List InputEvent → List (InputEvent × List UiCall) × List InputEvent
  | [] => ([], [])
  | e :: rest =>
      let calls := process env e
      let (ds, q) := processEvents env rest
      ((e, calls) :: ds, q)

/-! ## View scrolling (`InputManager::HandleViewScrolling`) -/

/-- One call into a view collaborator made by `HandleViewScrolling`.
`windowUnfollowSprite` records the pointer argument passed to
`window_unfollow_sprite`; `none` models a null pointer. -/
inductive ViewCall where
  | windowUnfollowSprite (w : Option Window)
  | inputScrollViewport (v : Int × Int)
  | gameHandleEdgeScroll
deriving DecidableEq, Repr

/-- The global state `HandleViewScrolling` reads: whether
`gScreenFlags & SCREEN_FLAGS_TITLE_DEMO` is set, whether the in-game
console is open, the result of `window_get_main()` (`none` models a null
pointer), the `_viewScroll` vector, `gConfigGeneral.edge_scrolling`,
whether `input_get_state() == InputState::Normal`, and whether
`gInputPlaceObjectModifier` has the SHIFT_Z or COPY_Z bit set. -/
structure ViewEnv where
  titleDemo : Bool
  consoleOpen : Bool
  mainWindow : Option Window
  viewScroll : Int × Int
  edgeScrolling : Bool
  inputStateNormal : Bool
  placeObjectModifierShiftOrCopy : Bool

/-- `InputManager::HandleViewScrolling`, as the ordered list of view
collaborator calls it makes. The guard of the `window_unfollow_sprite`
call is written exactly as C++ operator precedence parses the source line
`mainWindow != nullptr && _viewScroll.x != 0 || _viewScroll.y != 0`:
the conjunction binds tighter than the disjunction. -/
def handleViewScrolling (env : ViewEnv) : List ViewCall :=
  if env.titleDemo then []
  else if env.consoleOpen then []
  else
    (if (env.mainWindow ≠ none ∧ env.viewScroll.1 ≠ 0) ∨ env.viewScroll.2 ≠ 0 then
      [ViewCall.windowUnfollowSprite env.mainWindow]
    else []) ++
    [ViewCall.inputScrollViewport env.viewScroll] ++
    (if env.edgeScrolling then
      if ¬env.inputStateNormal then []
      else if env.placeObjectModifierShiftOrCopy then []
      else [ViewCall.gameHandleEdgeScroll]
    else [])

/-! ## Joystick scanning (`InputManager::CheckJoysticks`) -/

def CHECK_INTERVAL_MS : Nat := 5000

/-- The joystick-related fields of the `InputManager` state:
`_lastJoystickCheck` and `_joysticks` (opened joystick handles, modelled
by their identities). The declared integer type of `_lastJoystickCheck`
is in `InputManager.h`, outside the excerpt; modelled from the spec as an
unbounded natural, matching the spec's plain reading of
"the last check time plus 5000". -/
structure JoystickState where
  lastJoystickCheck : Nat
  joysticks : List Nat
deriving DecidableEq, Repr

/-- `InputManager::CheckJoysticks`. `tick` is `SDL_GetTicks()`;
`attached i` is what `SDL_JoystickOpen(i)` returns for each index below
`SDL_NumJoysticks()` (`none` models a null pointer), given as the list
over indices 0, 1, …. -/
def checkJoysticks (tick : Nat) (attached : List (Option Nat))
    (s : JoystickState) : JoystickState :=
  if tick > s.lastJoystickCheck + CHECK_INTERVAL_MS then
    { lastJoystickCheck := tick, joysticks := attached.filterMap id }
  else s

/-! ## Frame-level `InputManager::Process()` -/

def PLACE_OBJECT_MODIFIER_NONE : Nat := 0
def PLACE_OBJECT_MODIFIER_SHIFT_Z : Nat := 1
def PLACE_OBJECT_MODIFIER_COPY_Z : Nat := 2
def KMOD_SHIFT : Nat := 0x0003
def KMOD_CTRL : Nat := 0x00C0
def KMOD_ALT : Nat := 0x0300

/-- `InputManager::HandleModifiers`: the value of
`gInputPlaceObjectModifier` after the call, computed from
`SDL_GetModState()` (non-macOS build; the virtual-floor enable/disable
side effect depends only on this value and the config). -/
def handleModifiers (modState : Nat) : Nat :=
  let m := PLACE_OBJECT_MODIFIER_NONE
  let m := if modState &&& KMOD_SHIFT ≠ 0 then m ||| PLACE_OBJECT_MODIFIER_SHIFT_Z else m
  let m := if modState &&& KMOD_CTRL ≠ 0 then m ||| PLACE_OBJECT_MODIFIER_COPY_Z else m
  let m := if modState &&& KMOD_ALT ≠ 0 then m ||| 4 else m
  m

/-- The mutable `InputManager` fields touched by one frame tick:
`_events`, `_lastJoystickCheck` and `_joysticks`. -/
structure InputManagerState where
  events : List InputEvent
  lastJoystickCheck : Nat
  joysticks : List Nat
deriving DecidableEq, Repr

/-- The global inputs a frame tick reads. -/
structure FrameEnv where
  tick : Nat
  attached : List (Option Nat)
  modState : Nat
  processEnv : ProcessEnv
  titleDemo : Bool
  mainWindow : Option Window
  viewScroll : Int × Int
  edgeScrolling : Bool
  inputStateNormal : Bool

/-- `InputManager::Process()` — one frame tick: `CheckJoysticks()`, then
`HandleModifiers()`, then `ProcessEvents()` (its single invocation per
tick), then `HandleViewScrolling()`. Returns the new manager state, the
dispatched events with their calls, and the view-scrolling calls. -/
def processFrame (env : FrameEnv) (s : InputManagerState) :
    InputManagerState × List (InputEvent × List UiCall) × List ViewCall :=
  let js := checkJoysticks env.tick env.attached
    { lastJoystickCheck := s.lastJoystickCheck, joysticks := s.joysticks }
  let pom := handleModifiers env.modState
  let pe := processEvents env.processEnv s.events
  let viewCalls := handleViewScrolling
    { titleDemo := env.titleDemo, consoleOpen := env.processEnv.consoleOpen,
      mainWindow := env.mainWindow, viewScroll := env.viewScroll,
      edgeScrolling := env.edgeScrolling, inputStateNormal := env.inputStateNormal,
      placeObjectModifierShiftOrCopy :=
        (pom &&& (PLACE_OBJECT_MODIFIER_SHIFT_Z ||| PLACE_OBJECT_MODIFIER_COPY_Z)) != 0 }
  ({ events := pe.2, lastJoystickCheck := js.lastJoystickCheck,
     joysticks := js.joysticks },
   pe.1, viewCalls)

/-! ## Ride type descriptors (MultiDimensionRollerCoaster.h)

The enum and flag constants below are declared in `RideData.h`,
`Track.h`, `StringIds.h`, `Sprites.h` and related headers, outside the
excerpt. They are modelled as natural-number tags, pairwise distinct as
C++ guarantees for distinct enumerators (upstream values used where
known); the flag constants, including the two composite
`RIDE_TYPE_FLAGS_COMMON_COASTER*` masks, are modelled as pairwise
disjoint nonzero bit masks, as they are upstream. -/

def RIDE_TYPE_MULTI_DIMENSION_ROLLER_COASTER : Nat := 55
def RIDE_TYPE_MULTI_DIMENSION_ROLLER_COASTER_ALT : Nat := 56
def RIDE_TYPE_NULL : Nat := 255
def RIDE_CATEGORY_ROLLERCOASTER : Nat := 2
def RIDE_CATEGORY_NONE : Nat := 255

def TRACK_STRAIGHT : Nat := 1
def TRACK_STATION_END : Nat := 2
def TRACK_LIFT_HILL : Nat := 3
def TRACK_FLAT_ROLL_BANKING : Nat := 6
def TRACK_SLOPE : Nat := 8
def TRACK_SLOPE_STEEP : Nat := 9
def TRACK_S_BEND : Nat := 13
def TRACK_CURVE_SMALL : Nat := 15
def TRACK_CURVE : Nat := 16
def TRACK_HELIX_SMALL : Nat := 21
def TRACK_BRAKES : Nat := 24
def TRACK_ON_RIDE_PHOTO : Nat := 26
def TRACK_SLOPE_VERTICAL : Nat := 28
def TRACK_BLOCK_BRAKES : Nat := 38
def TRACK_INLINE_TWIST_UNINVERTED : Nat := 48
def TRACK_INLINE_TWIST_INVERTED : Nat := 49
def TRACK_QUARTER_LOOP_UNINVERTED : Nat := 50
def TRACK_QUARTER_LOOP_INVERTED : Nat := 51
def TRACK_ELEM_END_STATION : Nat := 1

def RIDE_TYPE_FLAGS_TRACK_HAS_3_COLOURS : Nat := 1 <<< 0
def RIDE_TYPE_FLAG_HAS_LEAVE_WHEN_ANOTHER_VEHICLE_ARRIVES_AT_STATION : Nat := 1 <<< 1
def RIDE_TYPE_FLAGS_COMMON_COASTER : Nat := 1 <<< 2
def RIDE_TYPE_FLAGS_COMMON_COASTER_NON_ALT : Nat := 1 <<< 3
def RIDE_TYPE_FLAG_HAS_LARGE_CURVES : Nat := 1 <<< 4
def RIDE_TYPE_FLAG_HAS_ALTERNATIVE_TRACK_TYPE : Nat := 1 <<< 5
def RIDE_TYPE_FLAG_PEEP_CHECK_GFORCES : Nat := 1 <<< 6
def RIDE_TYPE_FLAG_ALLOW_MULTIPLE_CIRCUITS : Nat := 1 <<< 7

def RIDE_MODE_CONTINUOUS_CIRCUIT : Nat := 1
def RIDE_MODE_CONTINUOUS_CIRCUIT_BLOCK_SECTIONED : Nat := 34

def BREAKDOWN_SAFETY_CUT_OUT : Nat := 0
def BREAKDOWN_RESTRAINTS_STUCK_CLOSED : Nat := 1
def BREAKDOWN_RESTRAINTS_STUCK_OPEN : Nat := 2
def BREAKDOWN_VEHICLE_MALFUNCTION : Nat := 5
def BREAKDOWN_BRAKES_FAILURE : Nat := 6

def STR_RIDE_NAME_MULTI_DIMENSION_ROLLER_COASTER : Nat := 1000
def STR_RIDE_DESCRIPTION_MULTI_DIMENSION_ROLLER_COASTER : Nat := 1001
def STR_RIDE_NAME_38 : Nat := 1056
def STR_RIDE_DESCRIPTION_UNKNOWN : Nat := 1057

def RIDE_COMPONENT_TYPE_TRAIN : Nat := 0
def RIDE_COMPONENT_TYPE_TRACK : Nat := 2
def RIDE_COMPONENT_TYPE_STATION : Nat := 4

def SoundId_LiftFrictionWheels : Nat := 32
def MUSIC_STYLE_ROCK_STYLE_3 : Nat := 30
def SHOP_ITEM_PHOTO2 : Nat := 38
def COLOUR_BRIGHT_PINK : Nat := 30
def COLOUR_YELLOW : Nat := 18
def COLOUR_LIGHT_PURPLE : Nat := 4
def COLOUR_BRIGHT_RED : Nat := 28
def COLOUR_BORDEAUX_RED : Nat := 26
def COLOUR_WHITE : Nat := 2
def SPR_RIDE_DESIGN_PREVIEW_MULTI_DIMENSION_ROLLER_COASTER_TRACK : Nat := 21790
def SPR_RIDE_DESIGN_PREVIEW_MULTI_DIMENSION_ROLLER_COASTER_SUPPORTS : Nat := 21791
def RideColourKey_Ride : Nat := 0

/-- Tag for the track paint function
`get_track_paint_function_multi_dimension_rc`; a `TrackPaintFunction`
field holds `some` tag or `none` for a null pointer. -/
def get_track_paint_function_multi_dimension_rc : Nat := 0

/-- Tag for `ride_ratings_calculate_multi_dimension_roller_coaster`. -/
def ride_ratings_calculate_multi_dimension_roller_coaster : Nat := 0

structure RideOperatingSettings where
  v0 : Nat
  v1 : Nat
  v2 : Nat
  v3 : Nat
  v4 : Nat
  v5 : Nat
deriving DecidableEq, Repr

structure RideNaming where
  Name : Nat
  Description : Nat
deriving DecidableEq, Repr

structure RideNameConvention where
  vehicle : Nat
  structure_ : Nat
  station : Nat
deriving DecidableEq, Repr

structure RideHeights where
  MaxHeight : Nat
  ClearanceHeight : Nat
  VehicleZOffset : Nat
  PlatformHeight : Nat
deriving DecidableEq, Repr

structure RideLiftData where
  sound : Nat
  minimum_speed : Nat
  maximum_speed : Nat
deriving DecidableEq, Repr

structure RatingsMultipliersDesc where
  Excitement : Nat
  Intensity : Nat
  Nausea : Nat
deriving DecidableEq, Repr

structure UpkeepCostsDescriptor where
  v0 : Nat
  v1 : Nat
  v2 : Nat
  v3 : Nat
  v4 : Nat
  v5 : Nat
deriving DecidableEq, Repr

structure BuildCostsDescriptor where
  v0 : Nat
  v1 : Nat
  v2 : Nat
deriving DecidableEq, Repr

structure ColourPreviewDesc where
  Track : Nat
  Supports : Nat
deriving DecidableEq, Repr

/-- `RideTypeDescriptor` (RideData.h), restricted to the statically
initialised data the two descriptors in the excerpt carry. Function
pointer fields hold `some` tag or `none` for `nullptr`; `ColourPresets`
is the list of colour triples of the `TRACK_COLOUR_PRESETS` macro. -/
structure RideTypeDescriptor where
  AlternateType : Nat
  Category : Nat
  EnabledTrackPieces : Nat
  ExtraTrackPieces : Nat
  CoveredTrackPieces : Nat
  StartTrackPiece : Nat
  TrackPaintFunction : Option Nat
  Flags : Nat
  RideModes : Nat
  DefaultMode : Nat
  OperatingSettings : RideOperatingSettings
  Naming : RideNaming
  NameConvention : RideNameConvention
  EnumName : String
  AvailableBreakdowns : Nat
  Heights : RideHeights
  MaxMass : Nat
  LiftData : RideLiftData
  RatingsCalculationFunction : Option Nat
  RatingsMultipliers : RatingsMultipliersDesc
  UpkeepCosts : UpkeepCostsDescriptor
  BuildCosts : BuildCostsDescriptor
  DefaultPrices : Nat × Nat
  DefaultMusic : Nat
  PhotoItem : Nat
  BonusValue : Nat
  ColourPresets : List (Nat × Nat × Nat)
  ColourPreview : ColourPreviewDesc
  ColourKey : Nat
deriving DecidableEq, Repr

def MultiDimensionRollerCoasterRTD : RideTypeDescriptor :=
  { AlternateType := RIDE_TYPE_MULTI_DIMENSION_ROLLER_COASTER_ALT,
    Category := RIDE_CATEGORY_ROLLERCOASTER,
    EnabledTrackPieces :=
      (1 <<< TRACK_STRAIGHT) ||| (1 <<< TRACK_STATION_END) |||
      (1 <<< TRACK_LIFT_HILL) ||| (1 <<< TRACK_FLAT_ROLL_BANKING) |||
      (1 <<< TRACK_SLOPE) ||| (1 <<< TRACK_SLOPE_STEEP) |||
      (1 <<< TRACK_S_BEND) ||| (1 <<< TRACK_CURVE_SMALL) |||
      (1 <<< TRACK_CURVE) ||| (1 <<< TRACK_HELIX_SMALL) |||
      (1 <<< TRACK_BRAKES) ||| (1 <<< TRACK_ON_RIDE_PHOTO) |||
      (1 <<< TRACK_SLOPE_VERTICAL) ||| (1 <<< TRACK_BLOCK_BRAKES) |||
      (1 <<< TRACK_INLINE_TWIST_UNINVERTED) |||
      (1 <<< TRACK_QUARTER_LOOP_UNINVERTED),
    ExtraTrackPieces := 0,
    CoveredTrackPieces := 0,
    StartTrackPiece := TRACK_ELEM_END_STATION,
    TrackPaintFunction := some get_track_paint_function_multi_dimension_rc,
    Flags :=
      RIDE_TYPE_FLAGS_TRACK_HAS_3_COLOURS |||
      RIDE_TYPE_FLAG_HAS_LEAVE_WHEN_ANOTHER_VEHICLE_ARRIVES_AT_STATION |||
      RIDE_TYPE_FLAGS_COMMON_COASTER ||| RIDE_TYPE_FLAGS_COMMON_COASTER_NON_ALT |||
      RIDE_TYPE_FLAG_HAS_LARGE_CURVES ||| RIDE_TYPE_FLAG_HAS_ALTERNATIVE_TRACK_TYPE |||
      RIDE_TYPE_FLAG_PEEP_CHECK_GFORCES ||| RIDE_TYPE_FLAG_ALLOW_MULTIPLE_CIRCUITS,
    RideModes :=
      (1 <<< RIDE_MODE_CONTINUOUS_CIRCUIT) |||
      (1 <<< RIDE_MODE_CONTINUOUS_CIRCUIT_BLOCK_SECTIONED),
    DefaultMode := RIDE_MODE_CONTINUOUS_CIRCUIT,
    OperatingSettings := { v0 := 10, v1 := 27, v2 := 30, v3 := 25, v4 := 25, v5 := 0 },
    Naming :=
      { Name := STR_RIDE_NAME_MULTI_DIMENSION_ROLLER_COASTER,
        Description := STR_RIDE_DESCRIPTION_MULTI_DIMENSION_ROLLER_COASTER },
    NameConvention :=
      { vehicle := RIDE_COMPONENT_TYPE_TRAIN, structure_ := RIDE_COMPONENT_TYPE_TRACK,
        station := RIDE_COMPONENT_TYPE_STATION },
    EnumName := "RIDE_TYPE_MULTI_DIMENSION_ROLLER_COASTER",
    AvailableBreakdowns :=
      (1 <<< BREAKDOWN_SAFETY_CUT_OUT) ||| (1 <<< BREAKDOWN_RESTRAINTS_STUCK_CLOSED) |||
      (1 <<< BREAKDOWN_RESTRAINTS_STUCK_OPEN) ||| (1 <<< BREAKDOWN_VEHICLE_MALFUNCTION) |||
      (1 <<< BREAKDOWN_BRAKES_FAILURE),
    Heights :=
      { MaxHeight := 40, ClearanceHeight := 24, VehicleZOffset := 8, PlatformHeight := 11 },
    MaxMass := 78,
    LiftData := { sound := SoundId_LiftFrictionWheels, minimum_speed := 4, maximum_speed := 6 },
    RatingsCalculationFunction := some ride_ratings_calculate_multi_dimension_roller_coaster,
    RatingsMultipliers := { Excitement := 50, Intensity := 30, Nausea := 10 },
    UpkeepCosts := { v0 := 75, v1 := 20, v2 := 90, v3 := 11, v4 := 3, v5 := 15 },
    BuildCosts := { v0 := 180, v1 := 5, v2 := 50 },
    DefaultPrices := (20, 20),
    DefaultMusic := MUSIC_STYLE_ROCK_STYLE_3,
    PhotoItem := SHOP_ITEM_PHOTO2,
    BonusValue := 100,
    ColourPresets :=
      [(COLOUR_BRIGHT_PINK, COLOUR_YELLOW, COLOUR_YELLOW),
       (COLOUR_LIGHT_PURPLE, COLOUR_BRIGHT_RED, COLOUR_BRIGHT_RED),
       (COLOUR_BORDEAUX_RED, COLOUR_WHITE, COLOUR_WHITE)],
    ColourPreview :=
      { Track := SPR_RIDE_DESIGN_PREVIEW_MULTI_DIMENSION_ROLLER_COASTER_TRACK,
        Supports := SPR_RIDE_DESIGN_PREVIEW_MULTI_DIMENSION_ROLLER_COASTER_SUPPORTS },
    ColourKey := RideColourKey_Ride }

def MultiDimensionRollerCoasterAltRTD : RideTypeDescriptor :=
  { AlternateType := RIDE_TYPE_NULL,
    Category := RIDE_CATEGORY_NONE,
    EnabledTrackPieces :=
      (1 <<< TRACK_STRAIGHT) ||| (1 <<< TRACK_FLAT_ROLL_BANKING) |||
      (1 <<< TRACK_SLOPE) ||| (1 <<< TRACK_SLOPE_STEEP) |||
      (1 <<< TRACK_S_BEND) ||| (1 <<< TRACK_CURVE_SMALL) |||
      (1 <<< TRACK_CURVE) ||| (1 <<< TRACK_BRAKES) |||
      (1 <<< TRACK_ON_RIDE_PHOTO) ||| (1 <<< TRACK_SLOPE_VERTICAL) |||
      (1 <<< TRACK_BLOCK_BRAKES) ||| (1 <<< TRACK_INLINE_TWIST_INVERTED) |||
      (1 <<< TRACK_QUARTER_LOOP_INVERTED),
    ExtraTrackPieces := 0,
    CoveredTrackPieces := 0,
    StartTrackPiece := TRACK_ELEM_END_STATION,
    TrackPaintFunction := none,
    Flags :=
      RIDE_TYPE_FLAGS_TRACK_HAS_3_COLOURS |||
      RIDE_TYPE_FLAG_HAS_LEAVE_WHEN_ANOTHER_VEHICLE_ARRIVES_AT_STATION |||
      RIDE_TYPE_FLAGS_COMMON_COASTER ||| RIDE_TYPE_FLAG_HAS_LARGE_CURVES,
    RideModes :=
      (1 <<< RIDE_MODE_CONTINUOUS_CIRCUIT) |||
      (1 <<< RIDE_MODE_CONTINUOUS_CIRCUIT_BLOCK_SECTIONED),
    DefaultMode := RIDE_MODE_CONTINUOUS_CIRCUIT,
    OperatingSettings := { v0 := 10, v1 := 27, v2 := 30, v3 := 25, v4 := 25, v5 := 0 },
    Naming := { Name := STR_RIDE_NAME_38, Description := STR_RIDE_DESCRIPTION_UNKNOWN },
    NameConvention :=
      { vehicle := RIDE_COMPONENT_TYPE_TRAIN, structure_ := RIDE_COMPONENT_TYPE_TRACK,
        station := RIDE_COMPONENT_TYPE_STATION },
    EnumName := "RIDE_TYPE_MULTI_DIMENSION_ROLLER_COASTER_ALT",
    AvailableBreakdowns :=
      (1 <<< BREAKDOWN_SAFETY_CUT_OUT) ||| (1 <<< BREAKDOWN_RESTRAINTS_STUCK_CLOSED) |||
      (1 <<< BREAKDOWN_RESTRAINTS_STUCK_OPEN) ||| (1 <<< BREAKDOWN_VEHICLE_MALFUNCTION) |||
      (1 <<< BREAKDOWN_BRAKES_FAILURE),
    Heights :=
      { MaxHeight := 40, ClearanceHeight := 24, VehicleZOffset := 8, PlatformHeight := 11 },
    MaxMass := 78,
    LiftData := { sound := SoundId_LiftFrictionWheels, minimum_speed := 4, maximum_speed := 6 },
    RatingsCalculationFunction := some ride_ratings_calculate_multi_dimension_roller_coaster,
    RatingsMultipliers := { Excitement := 50, Intensity := 30, Nausea := 10 },
    UpkeepCosts := { v0 := 75, v1 := 20, v2 := 90, v3 := 11, v4 := 3, v5 := 15 },
    BuildCosts := { v0 := 180, v1 := 5, v2 := 50 },
    DefaultPrices := (20, 20),
    DefaultMusic := MUSIC_STYLE_ROCK_STYLE_3,
    PhotoItem := SHOP_ITEM_PHOTO2,
    BonusValue := 100,
    ColourPresets :=
      [(COLOUR_BRIGHT_PINK, COLOUR_YELLOW, COLOUR_YELLOW),
       (COLOUR_LIGHT_PURPLE, COLOUR_BRIGHT_RED, COLOUR_BRIGHT_RED),
       (COLOUR_BORDEAUX_RED, COLOUR_WHITE, COLOUR_WHITE)],
    ColourPreview :=
      { Track := SPR_RIDE_DESIGN_PREVIEW_MULTI_DIMENSION_ROLLER_COASTER_TRACK,
        Supports := SPR_RIDE_DESIGN_PREVIEW_MULTI_DIMENSION_ROLLER_COASTER_SUPPORTS },
    ColourKey := RideColourKey_Ride }


/-! ## Theorems -/

/-- Successive `QueueInputEvent(InputEvent&&)` calls build the queue in
arrival order. -/
theorem queue_foldl_builds (es : List InputEvent) (acc : List InputEvent) :
    List.foldl (fun q e => queueInputEvent e q) acc es = acc ++ es := by
  induction es generalizing acc with
  | nil => simp
  | cons e rest ih =>
      rw [List.foldl_cons, ih]
      simp [queueInputEvent]

/-- Claim C2: for every sequence of events placed in the input queue by
`QueueInputEvent`, one call to `ProcessEvents` dispatches each queued
event exactly once, in first-in-first-out order, and leaves the queue
empty afterwards. -/
theorem processEvents_fifo_drain (env : ProcessEnv) (es : List InputEvent)
    (fenv : FrameEnv) (s : InputManagerState) :
    List.foldl (fun q e => queueInputEvent e q) [] es = es ∧
    (processEvents env es).1.map Prod.fst = es ∧
    (processEvents env es).2 = [] ∧
    (processFrame fenv s).1.events = [] ∧
    (processFrame fenv s).2.1.map Prod.fst = s.events := by
  have h1 : ∀ (env2 : ProcessEnv) (l : List InputEvent),
      (processEvents env2 l).1.map Prod.fst = l ∧ (processEvents env2 l).2 = [] := by
    intro env2 l
    induction l with
    | nil => simp [processEvents]
    | cons e rest ih => simp [processEvents, ih.1, ih.2]
  refine ⟨by simpa using queue_foldl_builds es [], (h1 env es).1, (h1 env es).2, ?_, ?_⟩
  · simp [processFrame, (h1 fenv.processEnv s.events).2]
  · simp [processFrame, (h1 fenv.processEnv s.events).1]

/-- Claim C4: `QueueInputEvent(const SDL_Event&)` enqueues exactly one
`InputEvent` for `SDL_JOYBUTTONDOWN` (JoyButton, Down), for
`SDL_JOYBUTTONUP` (JoyButton, Release), and for a non-centered
`SDL_JOYHATMOTION` (JoyHat, Down); for every other SDL event type, and for
a centered hat motion, the queue is left unchanged. -/
theorem queueInputEventSDL_cases (m : Nat) (e : SDLEvent) (q : List InputEvent) :
    (e.type = SDL_JOYBUTTONDOWN →
      queueInputEventSDL m e q =
        q ++ [{ DeviceKind := InputDeviceKind.JoyButton, Modifiers := m,
                Button := e.jbuttonButton, State := InputEventState.Down }]) ∧
    (e.type = SDL_JOYBUTTONUP →
      queueInputEventSDL m e q =
        q ++ [{ DeviceKind := InputDeviceKind.JoyButton, Modifiers := m,
                Button := e.jbuttonButton, State := InputEventState.Release }]) ∧
    (e.type = SDL_JOYHATMOTION → e.jhatValue ≠ SDL_HAT_CENTERED →
      queueInputEventSDL m e q =
        q ++ [{ DeviceKind := InputDeviceKind.JoyHat, Modifiers := m,
                Button := e.jhatValue, State := InputEventState.Down }]) ∧
    (e.type = SDL_JOYHATMOTION → e.jhatValue = SDL_HAT_CENTERED →
      queueInputEventSDL m e q = q) ∧
    (e.type ≠ SDL_JOYHATMOTION → e.type ≠ SDL_JOYBUTTONDOWN →
      e.type ≠ SDL_JOYBUTTONUP → queueInputEventSDL m e q = q) := by
  refine ⟨?_, ?_, ?_, ?_, ?_⟩ <;> intro h
  · simp [queueInputEventSDL, queueInputEvent, h, SDL_JOYBUTTONDOWN, SDL_JOYHATMOTION]
  · simp [queueInputEventSDL, queueInputEvent, h, SDL_JOYBUTTONUP, SDL_JOYBUTTONDOWN,
      SDL_JOYHATMOTION]
  · intro hv
    simp [queueInputEventSDL, queueInputEvent, h, hv]
  · intro hv
    simp [queueInputEventSDL, h, hv]
  · intro h2 h3
    simp [queueInputEventSDL, h, h2, h3]

/-- Witness for C4: a concrete `SDL_JOYBUTTONDOWN` event appends exactly
one JoyButton/Down input event. -/
theorem queueInputEventSDL_cases_witness :
    queueInputEventSDL 0 { type := 0x603, jhatValue := 0, jbuttonButton := 2 } [] =
      [{ DeviceKind := InputDeviceKind.JoyButton, Modifiers := 0,
         Button := 2, State := InputEventState.Down }] :=
  (queueInputEventSDL_cases 0 { type := 0x603, jhatValue := 0, jbuttonButton := 2 } []).1
    (by decide)

/-- Claim C3: `Process(const InputEvent&)` routes each event to exactly
one consumer: a keyboard event while the console is open goes to the
debug-console shortcut handler and, if declined, to the console text-input
handler; a keyboard event while chat is open goes to the chat handler; a
non-keyboard event, and a keyboard event not captured by a text-input
window or the widget text box, reach the general shortcut dispatch. -/
theorem process_routing (env : ProcessEnv) (e : InputEvent) :
    (e.DeviceKind = InputDeviceKind.Keyboard → env.consoleOpen = true →
      process env e = UiCall.specificShortcutDebugConsole e ::
        (if env.debugShortcutHandles e then [] else processInGameConsole e)) ∧
    (e.DeviceKind = InputDeviceKind.Keyboard → env.consoleOpen = false →
      env.chatOpen = true → process env e = processChat e) ∧
    (e.DeviceKind ≠ InputDeviceKind.Keyboard →
      process env e = [UiCall.shortcutProcessEvent e]) ∧
    (e.DeviceKind = InputDeviceKind.Keyboard → env.consoleOpen = false →
      env.chatOpen = false → env.textInputWindow = none →
      env.usingWidgetTextBox = false →
      process env e = [UiCall.shortcutProcessEvent e]) := by
  refine ⟨?_, ?_, ?_, ?_⟩ <;> intros <;> simp_all [process]

/-- Witness for C3: a concrete joystick-button event goes to the general
shortcut dispatch. -/
theorem process_routing_witness :
    process
      { consoleOpen := false, chatOpen := false, textInputWindow := none,
        usingWidgetTextBox := false, debugShortcutHandles := fun _ => false }
      { DeviceKind := InputDeviceKind.JoyButton, Modifiers := 0,
        Button := 1, State := InputEventState.Down } =
      [UiCall.shortcutProcessEvent
        { DeviceKind := InputDeviceKind.JoyButton, Modifiers := 0,
          Button := 1, State := InputEventState.Down }] :=
  (process_routing
    { consoleOpen := false, chatOpen := false, textInputWindow := none,
      usingWidgetTextBox := false, debugShortcutHandles := fun _ => false }
    { DeviceKind := InputDeviceKind.JoyButton, Modifiers := 0,
      Button := 1, State := InputEventState.Down }).2.2.1 (by decide)

/-- Claim C5: `ProcessInGameConsole` forwards a console action only for a
keyboard Release: ESCAPE ↦ LineClear, RETURN/KP_ENTER ↦ LineExecute,
UP ↦ HistoryPrevious, DOWN ↦ HistoryNext, PAGEUP ↦ ScrollPrevious,
PAGEDOWN ↦ ScrollNext; everything else produces no console input. -/
theorem processInGameConsole_mapping (e : InputEvent) :
    processInGameConsole e =
      (if e.DeviceKind = InputDeviceKind.Keyboard ∧
          e.State = InputEventState.Release then
        if e.Button = SDLK_ESCAPE then
          [UiCall.consoleInput ConsoleInput.LineClear]
        else if e.Button = SDLK_RETURN ∨ e.Button = SDLK_KP_ENTER then
          [UiCall.consoleInput ConsoleInput.LineExecute]
        else if e.Button = SDLK_UP then
          [UiCall.consoleInput ConsoleInput.HistoryPrevious]
        else if e.Button = SDLK_DOWN then
          [UiCall.consoleInput ConsoleInput.HistoryNext]
        else if e.Button = SDLK_PAGEUP then
          [UiCall.consoleInput ConsoleInput.ScrollPrevious]
        else if e.Button = SDLK_PAGEDOWN then
          [UiCall.consoleInput ConsoleInput.ScrollNext]
        else []
      else []) := by
  unfold processInGameConsole consoleInputFor
  split_ifs <;> simp_all

/-- Claim C6: `ProcessChat` forwards a chat action only for a keyboard
Release: ESCAPE ↦ Close, RETURN/KP_ENTER ↦ Send; everything else produces
no chat input. -/
theorem processChat_mapping (e : InputEvent) :
    processChat e =
      (if e.DeviceKind = InputDeviceKind.Keyboard ∧
          e.State = InputEventState.Release then
        if e.Button = SDLK_ESCAPE then [UiCall.chatInput ChatInput.Close]
        else if e.Button = SDLK_RETURN ∨ e.Button = SDLK_KP_ENTER then
          [UiCall.chatInput ChatInput.Send]
        else []
      else []) := by
  unfold processChat chatInputFor
  split_ifs <;> simp_all

/-- Claim C8: with console and chat closed, a keyboard event never reaches
the general shortcut dispatch while a WC_TEXTINPUT window exists or the
widget text box is in use; when the window exists, only a Release event is
forwarded to `window_text_input_key` and all other keyboard events are
dropped. -/
theorem textinput_captures_keyboard (env : ProcessEnv) (e : InputEvent)
    (hk : e.DeviceKind = InputDeviceKind.Keyboard)
    (hc : env.consoleOpen = false) (hch : env.chatOpen = false)
    (hcap : env.textInputWindow ≠ none ∨ env.usingWidgetTextBox = true) :
    (∀ e2, UiCall.shortcutProcessEvent e2 ∉ process env e) ∧
    (∀ w, env.textInputWindow = some w →
      process env e =
        if e.State = InputEventState.Release then
          [UiCall.windowTextInputKey w e.Button]
        else []) := by
  constructor
  · intro e2
    rcases hw : env.textInputWindow with _ | w
    · rcases hcap with h | h
      · exact absurd hw h
      · simp [process, hk, hc, hch, hw, h]
    · have hp : process env e =
          if e.State = InputEventState.Release then
            [UiCall.windowTextInputKey w e.Button]
          else [] := by
        simp [process, hk, hc, hch, hw]
      rw [hp]
      split_ifs <;> simp
  · intro w hw
    simp [process, hk, hc, hch, hw]

/-- Witness for C8: with a text-input window present, a concrete keyboard
Down event is dropped. -/
theorem textinput_captures_keyboard_witness :
    process
      { consoleOpen := false, chatOpen := false, textInputWindow := some ⟨5⟩,
        usingWidgetTextBox := false, debugShortcutHandles := fun _ => false }
      { DeviceKind := InputDeviceKind.Keyboard, Modifiers := 0,
        Button := 97, State := InputEventState.Down } = [] := by
  have h :=
    (textinput_captures_keyboard
      { consoleOpen := false, chatOpen := false, textInputWindow := some ⟨5⟩,
        usingWidgetTextBox := false, debugShortcutHandles := fun _ => false }
      { DeviceKind := InputDeviceKind.Keyboard, Modifiers := 0,
        Button := 97, State := InputEventState.Down }
      rfl rfl rfl (Or.inl (by simp))).2 ⟨5⟩ rfl
  simpa using h

/-- Claim C1, evaluated at the failing input: outside the title demo, with
the console closed, a null main window and `_viewScroll = (0, 1)`, the
guard `(mainWindow != nullptr && x != 0) || y != 0` is satisfied by its
right disjunct alone, so `HandleViewScrolling` passes a null window
pointer to `window_unfollow_sprite` — contradicting the claim that the
null check always protects that call. -/
theorem handleViewScrolling_passes_null_window :
    ViewCall.windowUnfollowSprite none ∈
      handleViewScrolling
        { titleDemo := false, consoleOpen := false, mainWindow := none,
          viewScroll := (0, 1), edgeScrolling := false,
          inputStateNormal := true, placeObjectModifierShiftOrCopy := false } := by
  decide

/-- Claim C9: `CheckJoysticks` rescans at most once per 5000 ms: if the
current tick does not exceed the last check time plus 5000, the joystick
list and the last check time are unchanged; otherwise the last check time
becomes the current tick and the list is rebuilt from the currently
attached joysticks (dropping the ones that failed to open). -/
theorem checkJoysticks_interval (tick : Nat) (attached : List (Option Nat))
    (s : JoystickState) :
    (tick ≤ s.lastJoystickCheck + CHECK_INTERVAL_MS →
      checkJoysticks tick attached s = s) ∧
    (s.lastJoystickCheck + CHECK_INTERVAL_MS < tick →
      checkJoysticks tick attached s =
        { lastJoystickCheck := tick, joysticks := attached.filterMap id }) := by
  constructor <;> intro h <;> simp [checkJoysticks, h]

/-- Witness for C9: a concrete early tick leaves the state unchanged, and
a concrete late tick rescans. -/
theorem checkJoysticks_interval_witness :
    checkJoysticks 3000 [some 1] { lastJoystickCheck := 0, joysticks := [7] } =
      { lastJoystickCheck := 0, joysticks := [7] } ∧
    checkJoysticks 6000 [some 1, none, some 3]
        { lastJoystickCheck := 0, joysticks := [7] } =
      { lastJoystickCheck := 6000, joysticks := [1, 3] } :=
  ⟨(checkJoysticks_interval 3000 [some 1]
      { lastJoystickCheck := 0, joysticks := [7] }).1 (by decide),
   (checkJoysticks_interval 6000 [some 1, none, some 3]
      { lastJoystickCheck := 0, joysticks := [7] }).2 (by decide)⟩

/-- Claim C7: both descriptors are constants of the embedding — nothing
in the embedded program mutates them — and every field read of either
descriptor returns the literal value given in the source initializer,
listed here for all 29 fields of each. -/
theorem rtd_fields_fixed :
    (MultiDimensionRollerCoasterRTD.AlternateType =
        RIDE_TYPE_MULTI_DIMENSION_ROLLER_COASTER_ALT ∧
      MultiDimensionRollerCoasterRTD.Category = RIDE_CATEGORY_ROLLERCOASTER ∧
      MultiDimensionRollerCoasterRTD.EnabledTrackPieces =
        ((1 <<< TRACK_STRAIGHT) ||| (1 <<< TRACK_STATION_END) |||
         (1 <<< TRACK_LIFT_HILL) ||| (1 <<< TRACK_FLAT_ROLL_BANKING) |||
         (1 <<< TRACK_SLOPE) ||| (1 <<< TRACK_SLOPE_STEEP) |||
         (1 <<< TRACK_S_BEND) ||| (1 <<< TRACK_CURVE_SMALL) |||
         (1 <<< TRACK_CURVE) ||| (1 <<< TRACK_HELIX_SMALL) |||
         (1 <<< TRACK_BRAKES) ||| (1 <<< TRACK_ON_RIDE_PHOTO) |||
         (1 <<< TRACK_SLOPE_VERTICAL) ||| (1 <<< TRACK_BLOCK_BRAKES) |||
         (1 <<< TRACK_INLINE_TWIST_UNINVERTED) |||
         (1 <<< TRACK_QUARTER_LOOP_UNINVERTED)) ∧
      MultiDimensionRollerCoasterRTD.ExtraTrackPieces = 0 ∧
      MultiDimensionRollerCoasterRTD.CoveredTrackPieces = 0 ∧
      MultiDimensionRollerCoasterRTD.StartTrackPiece = TRACK_ELEM_END_STATION ∧
      MultiDimensionRollerCoasterRTD.TrackPaintFunction =
        some get_track_paint_function_multi_dimension_rc ∧
      MultiDimensionRollerCoasterRTD.Flags =
        (RIDE_TYPE_FLAGS_TRACK_HAS_3_COLOURS |||
         RIDE_TYPE_FLAG_HAS_LEAVE_WHEN_ANOTHER_VEHICLE_ARRIVES_AT_STATION |||
         RIDE_TYPE_FLAGS_COMMON_COASTER |||
         RIDE_TYPE_FLAGS_COMMON_COASTER_NON_ALT |||
         RIDE_TYPE_FLAG_HAS_LARGE_CURVES |||
         RIDE_TYPE_FLAG_HAS_ALTERNATIVE_TRACK_TYPE |||
         RIDE_TYPE_FLAG_PEEP_CHECK_GFORCES |||
         RIDE_TYPE_FLAG_ALLOW_MULTIPLE_CIRCUITS) ∧
      MultiDimensionRollerCoasterRTD.RideModes =
        ((1 <<< RIDE_MODE_CONTINUOUS_CIRCUIT) |||
         (1 <<< RIDE_MODE_CONTINUOUS_CIRCUIT_BLOCK_SECTIONED)) ∧
      MultiDimensionRollerCoasterRTD.DefaultMode = RIDE_MODE_CONTINUOUS_CIRCUIT ∧
      MultiDimensionRollerCoasterRTD.OperatingSettings =
        { v0 := 10, v1 := 27, v2 := 30, v3 := 25, v4 := 25, v5 := 0 } ∧
      MultiDimensionRollerCoasterRTD.Naming =
        { Name := STR_RIDE_NAME_MULTI_DIMENSION_ROLLER_COASTER,
          Description := STR_RIDE_DESCRIPTION_MULTI_DIMENSION_ROLLER_COASTER } ∧
      MultiDimensionRollerCoasterRTD.NameConvention =
        { vehicle := RIDE_COMPONENT_TYPE_TRAIN,
          structure_ := RIDE_COMPONENT_TYPE_TRACK,
          station := RIDE_COMPONENT_TYPE_STATION } ∧
      MultiDimensionRollerCoasterRTD.EnumName =
        "RIDE_TYPE_MULTI_DIMENSION_ROLLER_COASTER" ∧
      MultiDimensionRollerCoasterRTD.AvailableBreakdowns =
        ((1 <<< BREAKDOWN_SAFETY_CUT_OUT) |||
         (1 <<< BREAKDOWN_RESTRAINTS_STUCK_CLOSED) |||
         (1 <<< BREAKDOWN_RESTRAINTS_STUCK_OPEN) |||
         (1 <<< BREAKDOWN_VEHICLE_MALFUNCTION) |||
         (1 <<< BREAKDOWN_BRAKES_FAILURE)) ∧
      MultiDimensionRollerCoasterRTD.Heights =
        { MaxHeight := 40, ClearanceHeight := 24, VehicleZOffset := 8,
          PlatformHeight := 11 } ∧
      MultiDimensionRollerCoasterRTD.MaxMass = 78 ∧
      MultiDimensionRollerCoasterRTD.LiftData =
        { sound := SoundId_LiftFrictionWheels, minimum_speed := 4,
          maximum_speed := 6 } ∧
      MultiDimensionRollerCoasterRTD.RatingsCalculationFunction =
        some ride_ratings_calculate_multi_dimension_roller_coaster ∧
      MultiDimensionRollerCoasterRTD.RatingsMultipliers =
        { Excitement := 50, Intensity := 30, Nausea := 10 } ∧
      MultiDimensionRollerCoasterRTD.UpkeepCosts =
        { v0 := 75, v1 := 20, v2 := 90, v3 := 11, v4 := 3, v5 := 15 } ∧
      MultiDimensionRollerCoasterRTD.BuildCosts = { v0 := 180, v1 := 5, v2 := 50 } ∧
      MultiDimensionRollerCoasterRTD.DefaultPrices = (20, 20) ∧
      MultiDimensionRollerCoasterRTD.DefaultMusic = MUSIC_STYLE_ROCK_STYLE_3 ∧
      MultiDimensionRollerCoasterRTD.PhotoItem = SHOP_ITEM_PHOTO2 ∧
      MultiDimensionRollerCoasterRTD.BonusValue = 100 ∧
      MultiDimensionRollerCoasterRTD.ColourPresets =
        [(COLOUR_BRIGHT_PINK, COLOUR_YELLOW, COLOUR_YELLOW),
         (COLOUR_LIGHT_PURPLE, COLOUR_BRIGHT_RED, COLOUR_BRIGHT_RED),
         (COLOUR_BORDEAUX_RED, COLOUR_WHITE, COLOUR_WHITE)] ∧
      MultiDimensionRollerCoasterRTD.ColourPreview =
        { Track := SPR_RIDE_DESIGN_PREVIEW_MULTI_DIMENSION_ROLLER_COASTER_TRACK,
          Supports := SPR_RIDE_DESIGN_PREVIEW_MULTI_DIMENSION_ROLLER_COASTER_SUPPORTS } ∧
      MultiDimensionRollerCoasterRTD.ColourKey = RideColourKey_Ride) ∧
    (MultiDimensionRollerCoasterAltRTD.AlternateType = RIDE_TYPE_NULL ∧
      MultiDimensionRollerCoasterAltRTD.Category = RIDE_CATEGORY_NONE ∧
      MultiDimensionRollerCoasterAltRTD.EnabledTrackPieces =
        ((1 <<< TRACK_STRAIGHT) ||| (1 <<< TRACK_FLAT_ROLL_BANKING) |||
         (1 <<< TRACK_SLOPE) ||| (1 <<< TRACK_SLOPE_STEEP) |||
         (1 <<< TRACK_S_BEND) ||| (1 <<< TRACK_CURVE_SMALL) |||
         (1 <<< TRACK_CURVE) ||| (1 <<< TRACK_BRAKES) |||
         (1 <<< TRACK_ON_RIDE_PHOTO) ||| (1 <<< TRACK_SLOPE_VERTICAL) |||
         (1 <<< TRACK_BLOCK_BRAKES) ||| (1 <<< TRACK_INLINE_TWIST_INVERTED) |||
         (1 <<< TRACK_QUARTER_LOOP_INVERTED)) ∧
      MultiDimensionRollerCoasterAltRTD.ExtraTrackPieces = 0 ∧
      MultiDimensionRollerCoasterAltRTD.CoveredTrackPieces = 0 ∧
      MultiDimensionRollerCoasterAltRTD.StartTrackPiece = TRACK_ELEM_END_STATION ∧
      MultiDimensionRollerCoasterAltRTD.TrackPaintFunction = none ∧
      MultiDimensionRollerCoasterAltRTD.Flags =
        (RIDE_TYPE_FLAGS_TRACK_HAS_3_COLOURS |||
         RIDE_TYPE_FLAG_HAS_LEAVE_WHEN_ANOTHER_VEHICLE_ARRIVES_AT_STATION |||
         RIDE_TYPE_FLAGS_COMMON_COASTER ||| RIDE_TYPE_FLAG_HAS_LARGE_CURVES) ∧
      MultiDimensionRollerCoasterAltRTD.RideModes =
        ((1 <<< RIDE_MODE_CONTINUOUS_CIRCUIT) |||
         (1 <<< RIDE_MODE_CONTINUOUS_CIRCUIT_BLOCK_SECTIONED)) ∧
      MultiDimensionRollerCoasterAltRTD.DefaultMode = RIDE_MODE_CONTINUOUS_CIRCUIT ∧
      MultiDimensionRollerCoasterAltRTD.OperatingSettings =
        { v0 := 10, v1 := 27, v2 := 30, v3 := 25, v4 := 25, v5 := 0 } ∧
      MultiDimensionRollerCoasterAltRTD.Naming =
        { Name := STR_RIDE_NAME_38, Description := STR_RIDE_DESCRIPTION_UNKNOWN } ∧
      MultiDimensionRollerCoasterAltRTD.NameConvention =
        { vehicle := RIDE_COMPONENT_TYPE_TRAIN,
          structure_ := RIDE_COMPONENT_TYPE_TRACK,
          station := RIDE_COMPONENT_TYPE_STATION } ∧
      MultiDimensionRollerCoasterAltRTD.EnumName =
        "RIDE_TYPE_MULTI_DIMENSION_ROLLER_COASTER_ALT" ∧
      MultiDimensionRollerCoasterAltRTD.AvailableBreakdowns =
        ((1 <<< BREAKDOWN_SAFETY_CUT_OUT) |||
         (1 <<< BREAKDOWN_RESTRAINTS_STUCK_CLOSED) |||
         (1 <<< BREAKDOWN_RESTRAINTS_STUCK_OPEN) |||
         (1 <<< BREAKDOWN_VEHICLE_MALFUNCTION) |||
         (1 <<< BREAKDOWN_BRAKES_FAILURE)) ∧
      MultiDimensionRollerCoasterAltRTD.Heights =
        { MaxHeight := 40, ClearanceHeight := 24, VehicleZOffset := 8,
          PlatformHeight := 11 } ∧
      MultiDimensionRollerCoasterAltRTD.MaxMass = 78 ∧
      MultiDimensionRollerCoasterAltRTD.LiftData =
        { sound := SoundId_LiftFrictionWheels, minimum_speed := 4,
          maximum_speed := 6 } ∧
      MultiDimensionRollerCoasterAltRTD.RatingsCalculationFunction =
        some ride_ratings_calculate_multi_dimension_roller_coaster ∧
      MultiDimensionRollerCoasterAltRTD.RatingsMultipliers =
        { Excitement := 50, Intensity := 30, Nausea := 10 } ∧
      MultiDimensionRollerCoasterAltRTD.UpkeepCosts =
        { v0 := 75, v1 := 20, v2 := 90, v3 := 11, v4 := 3, v5 := 15 } ∧
      MultiDimensionRollerCoasterAltRTD.BuildCosts =
        { v0 := 180, v1 := 5, v2 := 50 } ∧
      MultiDimensionRollerCoasterAltRTD.DefaultPrices = (20, 20) ∧
      MultiDimensionRollerCoasterAltRTD.DefaultMusic = MUSIC_STYLE_ROCK_STYLE_3 ∧
      MultiDimensionRollerCoasterAltRTD.PhotoItem = SHOP_ITEM_PHOTO2 ∧
      MultiDimensionRollerCoasterAltRTD.BonusValue = 100 ∧
      MultiDimensionRollerCoasterAltRTD.ColourPresets =
        [(COLOUR_BRIGHT_PINK, COLOUR_YELLOW, COLOUR_YELLOW),
         (COLOUR_LIGHT_PURPLE, COLOUR_BRIGHT_RED, COLOUR_BRIGHT_RED),
         (COLOUR_BORDEAUX_RED, COLOUR_WHITE, COLOUR_WHITE)] ∧
      MultiDimensionRollerCoasterAltRTD.ColourPreview =
        { Track := SPR_RIDE_DESIGN_PREVIEW_MULTI_DIMENSION_ROLLER_COASTER_TRACK,
          Supports := SPR_RIDE_DESIGN_PREVIEW_MULTI_DIMENSION_ROLLER_COASTER_SUPPORTS } ∧
      MultiDimensionRollerCoasterAltRTD.ColourKey = RideColourKey_Ride) := by
  refine ⟨?_, ?_⟩ <;> repeat (first | rfl | constructor)

/-- Claim C10: the alternate descriptor agrees with the primary one on
every operating and economic field (and on every other field outside the
differing set), and differs exactly in AlternateType, Category,
EnabledTrackPieces, TrackPaintFunction, Flags, Naming and EnumName. -/
theorem altRTD_agreement :
    (MultiDimensionRollerCoasterAltRTD.RideModes =
        MultiDimensionRollerCoasterRTD.RideModes ∧
      MultiDimensionRollerCoasterAltRTD.DefaultMode =
        MultiDimensionRollerCoasterRTD.DefaultMode ∧
      MultiDimensionRollerCoasterAltRTD.OperatingSettings =
        MultiDimensionRollerCoasterRTD.OperatingSettings ∧
      MultiDimensionRollerCoasterAltRTD.AvailableBreakdowns =
        MultiDimensionRollerCoasterRTD.AvailableBreakdowns ∧
      MultiDimensionRollerCoasterAltRTD.Heights =
        MultiDimensionRollerCoasterRTD.Heights ∧
      MultiDimensionRollerCoasterAltRTD.MaxMass =
        MultiDimensionRollerCoasterRTD.MaxMass ∧
      MultiDimensionRollerCoasterAltRTD.LiftData =
        MultiDimensionRollerCoasterRTD.LiftData ∧
      MultiDimensionRollerCoasterAltRTD.RatingsMultipliers =
        MultiDimensionRollerCoasterRTD.RatingsMultipliers ∧
      MultiDimensionRollerCoasterAltRTD.UpkeepCosts =
        MultiDimensionRollerCoasterRTD.UpkeepCosts ∧
      MultiDimensionRollerCoasterAltRTD.BuildCosts =
        MultiDimensionRollerCoasterRTD.BuildCosts ∧
      MultiDimensionRollerCoasterAltRTD.DefaultPrices =
        MultiDimensionRollerCoasterRTD.DefaultPrices ∧
      MultiDimensionRollerCoasterAltRTD.DefaultMusic =
        MultiDimensionRollerCoasterRTD.DefaultMusic ∧
      MultiDimensionRollerCoasterAltRTD.PhotoItem =
        MultiDimensionRollerCoasterRTD.PhotoItem ∧
      MultiDimensionRollerCoasterAltRTD.BonusValue =
        MultiDimensionRollerCoasterRTD.BonusValue ∧
      MultiDimensionRollerCoasterAltRTD.ColourPresets =
        MultiDimensionRollerCoasterRTD.ColourPresets ∧
      MultiDimensionRollerCoasterAltRTD.ColourPreview =
        MultiDimensionRollerCoasterRTD.ColourPreview ∧
      MultiDimensionRollerCoasterAltRTD.ColourKey =
        MultiDimensionRollerCoasterRTD.ColourKey) ∧
    (MultiDimensionRollerCoasterAltRTD.ExtraTrackPieces =
        MultiDimensionRollerCoasterRTD.ExtraTrackPieces ∧
      MultiDimensionRollerCoasterAltRTD.CoveredTrackPieces =
        MultiDimensionRollerCoasterRTD.CoveredTrackPieces ∧
      MultiDimensionRollerCoasterAltRTD.StartTrackPiece =
        MultiDimensionRollerCoasterRTD.StartTrackPiece ∧
      MultiDimensionRollerCoasterAltRTD.NameConvention =
        MultiDimensionRollerCoasterRTD.NameConvention ∧
      MultiDimensionRollerCoasterAltRTD.RatingsCalculationFunction =
        MultiDimensionRollerCoasterRTD.RatingsCalculationFunction) ∧
    (MultiDimensionRollerCoasterAltRTD.AlternateType ≠
        MultiDimensionRollerCoasterRTD.AlternateType ∧
      MultiDimensionRollerCoasterAltRTD.Category ≠
        MultiDimensionRollerCoasterRTD.Category ∧
      MultiDimensionRollerCoasterAltRTD.EnabledTrackPieces ≠
        MultiDimensionRollerCoasterRTD.EnabledTrackPieces ∧
      MultiDimensionRollerCoasterAltRTD.TrackPaintFunction ≠
        MultiDimensionRollerCoasterRTD.TrackPaintFunction ∧
      MultiDimensionRollerCoasterAltRTD.Flags ≠
        MultiDimensionRollerCoasterRTD.Flags ∧
      MultiDimensionRollerCoasterAltRTD.Naming ≠
        MultiDimensionRollerCoasterRTD.Naming ∧
      MultiDimensionRollerCoasterAltRTD.EnumName ≠
        MultiDimensionRollerCoasterRTD.EnumName) := by
  refine ⟨⟨rfl, rfl, rfl, rfl, rfl, rfl, rfl, rfl, rfl, rfl, rfl, rfl, rfl,
           rfl, rfl, rfl, rfl⟩,
          ⟨rfl, rfl, rfl, rfl, rfl⟩, ?_, ?_, ?_, ?_, ?_, ?_, ?_⟩ <;> decide

end OpenRCT2
